import Mathlib

/-!
Verification of the Airbnb listings CSV-to-document transformer
(`sc_airbnb_listings_csv_to_jsonl.py`).

The program loads a CSV into a pandas DataFrame, fills missing values of the
four required columns with the empty string, derives a synthetic `text`
column, selects and renames columns, and uploads one document per row to a
Vespa instance.  It also defines three query helpers (`keyword_search`,
`semantic_search`, `get_embedding`).

Shallow embedding conventions:
* a DataFrame cell is `Option String` (`none` models pandas `NaN`);
* a row is an association list from column name to cell;
* a table carries its header (the DataFrame column index) and its rows;
* the Vespa application object is modelled as a function from queries to
  responses, so the query helpers are pure functions of that oracle.
-/

/-- A DataFrame cell: `none` models a missing value (pandas `NaN`). -/
abbrev Cell : Type := Option String

/-- A DataFrame row: association list from column name to cell.  Lookup of a
key takes the first matching entry, as a DataFrame has unique column names. -/
abbrev Row : Type := List (String × Cell)

/-- A DataFrame: its column index (header) and its rows. -/
structure Table where
  header : List String
  rows : List Row
deriving Repr, DecidableEq

/-- Reading a cell from a row.  A column absent from the row reads as a
missing value; after schema validation every required column is present. -/
def getCell (r : Row) (c : String) : Cell :=
  (List.lookup c r).getD none

/-- `required_columns = ['id', 'name', 'room_type', 'neighbourhood']` from
`process_airbnb_csv_and_upload`. -/
def requiredColumns : List String := ["id", "name", "room_type", "neighbourhood"]

/-- `listings[required_columns] = listings[required_columns].fillna('')`:
every cell of a required column has `NaN` replaced by the empty string; all
other columns are left untouched. -/
def fillRequired : Row → Row
  | [] => []
  | (k, v) :: rest =>
      (k, if k ∈ requiredColumns then some (v.getD "") else v) :: fillRequired rest

/-- Rendering a cell into a document field, as `row.to_dict()` /
the f-string do after `fillna` has run. -/
def fillStr (c : Cell) : String :=
  c.getD ""

/-- The `fields` object uploaded for one row: `doc_id` renamed from `id`,
`title` renamed from `name`, and the synthesized `text` column. -/
structure DocumentRecord where
  doc_id : String
  title : String
  text : String
deriving Repr, DecidableEq

/-- The per-row part of `process_airbnb_csv_and_upload`: fill missing values
of the required columns, compute
`text = f"Room type: {row['room_type']} Neighbourhood: {row['neighbourhood']}"`,
select `id`, `name`, `text` and rename to `doc_id`, `title`, `text`. -/
def transformRow (r : Row) : DocumentRecord :=
  let fr := fillRequired r
  { doc_id := fillStr (getCell fr "id")
    title := fillStr (getCell fr "name")
    text := "Room type: " ++ fillStr (getCell fr "room_type")
        ++ " Neighbourhood: " ++ fillStr (getCell fr "neighbourhood") }

/-- The error raised by `listings[required_columns]` when a required column
is absent from the DataFrame: a pandas `KeyError`, aborting the run. -/
def schemaError : String := "KeyError: required columns not in index"

/-- The transformation pass of `process_airbnb_csv_and_upload` on the loaded
table: selecting `listings[required_columns]` raises a `KeyError` if any
required column is missing from the header (before any document is built);
otherwise every row is transformed. -/
def transformListings (t : Table) : Except String (List DocumentRecord) :=
  if requiredColumns.all (fun c => t.header.contains c) then
    Except.ok (t.rows.map transformRow)
  else
    Except.error schemaError

/-- The document identifier string of the live-upload path:
`"id": f"doc::{row['doc_id']}"` in the per-document `app.index.put` call. -/
def uploadDocId (d : DocumentRecord) : String :=
  "doc::" ++ d.doc_id

/-- `process_airbnb_csv_and_upload` on the loaded table: the sequence of
`(document identifier, fields)` pairs sent to `app.index.put`, one per row,
or the schema error. -/
def process_airbnb_csv_and_upload (t : Table) :
    Except String (List (String × DocumentRecord)) :=
  (transformListings t).map (List.map fun d => (uploadDocId d, d))

/-- Modelled from the spec: the file-export path (not present in the source
file, which only has the live-upload path) wraps each `DocumentRecord` in an
`Envelope` whose `put` field is `"id:hybrid-search:doc::" + doc_id`. -/
def envelopePut (d : DocumentRecord) : String :=
  "id:hybrid-search:doc::" ++ d.doc_id

/-- A hit returned by a Vespa query: its `fields` map. -/
structure Hit where
  fields : List (String × String)
deriving Repr, DecidableEq

/-- A Vespa query response: its list of hits. -/
structure QueryResponse where
  hits : List Hit
deriving Repr, DecidableEq

/-- A Vespa query body: the keys used across the three query helpers;
a key a helper does not set is `none`. -/
structure VespaQuery where
  yql : String
  query : Option String := none
  ranking : Option String := none
  inputQueryE : Option String := none
  hits : Option Nat := none
deriving Repr, DecidableEq

/-- `display_hits_as_df(response, fields)`: one record per hit, each record
mapping a requested field name to `hit["fields"][field]` (`none` models the
`KeyError` case of a hit lacking the field). -/
def display_hits_as_df (response : QueryResponse) (fields : List String) :
    List (List (String × Option String)) :=
  response.hits.map fun h => fields.map fun f => (f, List.lookup f h.fields)

/-- The query dict built by `keyword_search`. -/
def keywordQuery (search_query : String) : VespaQuery :=
  { yql := "select * from sources * where userQuery() limit 5"
    query := some search_query
    ranking := some "bm25" }

/-- `keyword_search(app, search_query)`, with the Vespa application modelled
as a function from query bodies to responses. -/
def keyword_search (app : VespaQuery → QueryResponse) (search_query : String) :
    List (List (String × Option String)) :=
  display_hits_as_df (app (keywordQuery search_query)) ["doc_id", "title"]

/-- The query dict built by `semantic_search`. -/
def semanticQuery (query : String) : VespaQuery :=
  { yql := "select * from sources * where (\x7btargetHits:100\x7dnearestNeighbor(embedding,e)) limit 5"
    query := some query
    ranking := some "semantic"
    inputQueryE := some "embed(@query)" }

/-- `semantic_search(app, query)`. -/
def semantic_search (app : VespaQuery → QueryResponse) (query : String) :
    List (List (String × Option String)) :=
  display_hits_as_df (app (semanticQuery query)) ["doc_id", "title"]

/-- The query dict built by `get_embedding` for a document id. -/
def embeddingQuery (doc_id : String) : VespaQuery :=
  { yql := "select doc_id, title, text, embedding from content.doc where doc_id contains \x27"
        ++ doc_id ++ "\x27"
    hits := some 1 }

/-- `get_embedding(doc_id, app)`: issue the query and return the first hit,
or `None` when the response has no hits. -/
def get_embedding (doc_id : String) (app : VespaQuery → QueryResponse) :
    Option Hit :=
  let result := app (embeddingQuery doc_id)
  match result.hits with
  | [] => none
  | h :: _ => some h

/-! ### Concrete rows and tables used as test vectors -/

/-- A row whose required columns are all present but whose `id` value is
missing (pandas `NaN`). -/
def rowNullId : Row :=
  [("id", none), ("name", some "Cozy Loft"), ("room_type", some "Private room"),
   ("neighbourhood", some "Downtown")]

/-- The example row of the spec. -/
def row12345 : Row :=
  [("id", some "12345"), ("name", some "Cozy Loft"),
   ("room_type", some "Private room"), ("neighbourhood", some "Downtown")]

/-- A row with missing `name`, `room_type` and `neighbourhood` values. -/
def rowNullFields : Row :=
  [("id", some "7"), ("name", none), ("room_type", none), ("neighbourhood", none)]

/-- A table whose header lacks the `room_type` column. -/
def tableMissingRoomType : Table :=
  { header := ["id", "name", "neighbourhood"], rows := [row12345] }

/-- A two-row table with all required columns. -/
def tableTwoRows : Table :=
  { header := ["id", "name", "room_type", "neighbourhood"],
    rows := [row12345, rowNullFields] }

/-! ### Helper lemmas about the transformation -/

/-- Looking a column up in a filled row: the cell of the first matching
entry, with the fill applied when the column is required. -/
theorem lookup_fillRequired (r : Row) (c : String) :
    List.lookup c (fillRequired r)
      = (List.lookup c r).map
          (fun v => if c ∈ requiredColumns then some (v.getD "") else v) := by
  induction r with
  | nil => rfl
  | cons p rest ih =>
      obtain ⟨k, v⟩ := p
      by_cases h : c = k
      · subst h
        simp [fillRequired, List.lookup]
      · have hbeq : (c == k) = false := beq_eq_false_iff_ne.mpr h
        simp [fillRequired, List.lookup, hbeq, ih]

/-- Rendering a required column of the filled row gives the same string as
rendering the raw cell: the fill only replaces `NaN` by `""`. -/
theorem fillStr_getCell_fillRequired (r : Row) (c : String)
    (hc : c ∈ requiredColumns) :
    fillStr (getCell (fillRequired r) c) = fillStr (getCell r c) := by
  unfold getCell
  rw [lookup_fillRequired]
  cases List.lookup c r with
  | none => rfl
  | some v => cases v <;> simp [fillStr, hc]

/-- The `doc_id` field of a transformed row. -/
theorem transformRow_doc_id (r : Row) :
    (transformRow r).doc_id = fillStr (getCell r "id") := by
  simp only [transformRow]
  exact fillStr_getCell_fillRequired r "id" (by decide)

/-- The `title` field of a transformed row. -/
theorem transformRow_title (r : Row) :
    (transformRow r).title = fillStr (getCell r "name") := by
  simp only [transformRow]
  exact fillStr_getCell_fillRequired r "name" (by decide)

/-- The `text` field of a transformed row. -/
theorem transformRow_text (r : Row) :
    (transformRow r).text = "Room type: " ++ fillStr (getCell r "room_type")
        ++ " Neighbourhood: " ++ fillStr (getCell r "neighbourhood") := by
  simp only [transformRow]
  rw [fillStr_getCell_fillRequired r "room_type" (by decide),
    fillStr_getCell_fillRequired r "neighbourhood" (by decide)]

/-! ### Space-free tokens cannot straddle a space in the text template -/

/-- The tokens a naive NaN rendering could have introduced into `text`. -/
def noValueTokens : List String := ["NaN", "nan", "null", "None"]

/-- A space-free list that is a prefix of `a ++ ' ' :: b` is a prefix of `a`. -/
theorem prefix_of_append_cons {t a b : List Char} (hsp : ' ' ∉ t)
    (h : t <+: a ++ ' ' :: b) : t <+: a := by
  induction t generalizing a with
  | nil => exact List.nil_prefix
  | cons c t ih =>
      cases a with
      | nil =>
          rw [List.nil_append, List.cons_prefix_cons] at h
          obtain ⟨hc, -⟩ := h
          subst hc
          exact absurd (List.mem_cons_self _ _) hsp
      | cons x a =>
          rw [List.cons_append, List.cons_prefix_cons] at h
          obtain ⟨hc, h2⟩ := h
          subst hc
          have hsp2 : ' ' ∉ t := fun hm => hsp (List.mem_cons_of_mem _ hm)
          exact List.cons_prefix_cons.mpr ⟨rfl, ih hsp2 h2⟩

/-- A space-free infix of `a ++ ' ' :: b` is an infix of `a` or of `b`. -/
theorem infix_of_append_cons {t a b : List Char} (hsp : ' ' ∉ t)
    (h : t <:+: a ++ ' ' :: b) : t <:+: a ∨ t <:+: b := by
  induction a with
  | nil =>
      rw [List.nil_append] at h
      rcases List.infix_cons_iff.mp h with h1 | h2
      · left
        cases t with
        | nil => exact List.nil_infix
        | cons c t =>
            rw [List.cons_prefix_cons] at h1
            obtain ⟨hc, -⟩ := h1
            subst hc
            exact absurd (List.mem_cons_self _ _) hsp
      · exact Or.inr h2
  | cons x a ih =>
      rw [List.cons_append] at h
      rcases List.infix_cons_iff.mp h with h1 | h2
      · rw [← List.cons_append] at h1
        exact Or.inl (List.IsPrefix.isInfix (prefix_of_append_cons hsp h1))
      · rcases ih h2 with h3 | h3
        · exact Or.inl (List.infix_cons h3)
        · exact Or.inr h3

/-- The character list of the synthesized text, cut at its spaces. -/
theorem text_data_decomp (rt nb : String) :
    ("Room type: " ++ rt ++ " Neighbourhood: " ++ nb).data
      = "Room".data ++ ' ' :: ("type:".data ++ ' '
          :: (rt.data ++ ' ' :: ("Neighbourhood:".data ++ ' ' :: nb.data))) := by
  simp only [String.data_append, List.append_assoc]
  rfl

/-- A space-free token absent from the template chunks and from both field
values is absent from the synthesized text. -/
theorem token_not_in_text (r : Row) (tok : String) (hsp : ' ' ∉ tok.data)
    (h1 : ¬ tok.data <:+: "Room".data) (h2 : ¬ tok.data <:+: "type:".data)
    (h4 : ¬ tok.data <:+: "Neighbourhood:".data)
    (hrt : ¬ tok.data <:+: (fillStr (getCell r "room_type")).data)
    (hnb : ¬ tok.data <:+: (fillStr (getCell r "neighbourhood")).data) :
    ¬ tok.data <:+: (transformRow r).text.data := by
  intro h
  rw [transformRow_text r, text_data_decomp] at h
  rcases infix_of_append_cons hsp h with h | h
  · exact h1 h
  rcases infix_of_append_cons hsp h with h | h
  · exact h2 h
  rcases infix_of_append_cons hsp h with h | h
  · exact hrt h
  rcases infix_of_append_cons hsp h with h | h
  · exact h4 h
  · exact hnb h

/-! ### Claim theorems -/

/-- C1 fails as stated: in `rowNullId` every required column is present
(only the `id` value is `NaN`), yet the emitted `doc_id` is the empty
string rather than the row's `id` cell — `fillna('')` also rewrites `id`. -/
theorem c1_counterexample :
    (List.lookup "id" rowNullId).isSome = true ∧
    (List.lookup "name" rowNullId).isSome = true ∧
    (List.lookup "room_type" rowNullId).isSome = true ∧
    (List.lookup "neighbourhood" rowNullId).isSome = true ∧
    some (transformRow rowNullId).doc_id ≠ getCell rowNullId "id" := by
  refine ⟨rfl, rfl, rfl, rfl, ?_⟩
  decide

/-- C1 (amended): for every input row whose `id` value is present
(non-null), the emitted `doc_id` equals the row's `id` value exactly, with
no coercion, reformatting, or substitution; a null `id` value is replaced
by the empty string like the other required columns. -/
theorem c1_doc_id_copied (r : Row) (s : String)
    (h : getCell r "id" = some s) : (transformRow r).doc_id = s := by
  rw [transformRow_doc_id, h]
  rfl

/-- Witness for C1 (amended) at the spec's example row. -/
theorem c1_doc_id_copied_witness :
    getCell row12345 "id" = some "12345" ∧ (transformRow row12345).doc_id = "12345" :=
  ⟨rfl, c1_doc_id_copied row12345 "12345" rfl⟩

/-- C2 fails as stated: the empty-string substitution IS applied to the
`id` field — filling `rowNullId` turns its null `id` cell into `""`. -/
theorem c2_counterexample :
    getCell (fillRequired rowNullId) "id" ≠ getCell rowNullId "id" ∧
    getCell (fillRequired rowNullId) "id" = some "" := by
  refine ⟨?_, rfl⟩
  decide

/-- C2 (amended): the transformation substitutes the empty string for
null/missing values in all four required columns — `name`, `room_type`,
`neighbourhood` AND `id` — and leaves every other column unchanged. -/
theorem c2_fill_required (r : Row) (c : String) :
    (c ∈ requiredColumns → ∀ v, List.lookup c r = some v →
        List.lookup c (fillRequired r) = some (some (v.getD ""))) ∧
    (c ∉ requiredColumns → List.lookup c (fillRequired r) = List.lookup c r) := by
  constructor
  · intro hc v hv
    rw [lookup_fillRequired, hv]
    simp [hc]
  · intro hc
    rw [lookup_fillRequired]
    cases List.lookup c r with
    | none => rfl
    | some v => simp [hc]

/-- Witness for C2 (amended): the substitution applied to a null `id`. -/
theorem c2_fill_required_witness :
    List.lookup "id" (fillRequired rowNullId) = some (some "") :=
  (c2_fill_required rowNullId "id").1 (by decide) none rfl

/-- C3: the emitted `text` is exactly the template applied to the
empty-string-substituted `room_type` and `neighbourhood` values, and no
null token (`NaN`, `nan`, `null`, `None`) appears in it unless it already
appears in one of those two substituted values. -/
theorem c3_text_synthesis (r : Row) :
    ((transformRow r).text = "Room type: " ++ fillStr (getCell r "room_type")
        ++ " Neighbourhood: " ++ fillStr (getCell r "neighbourhood"))
    ∧ ∀ tok ∈ noValueTokens,
        ¬ tok.data <:+: (fillStr (getCell r "room_type")).data →
        ¬ tok.data <:+: (fillStr (getCell r "neighbourhood")).data →
        ¬ tok.data <:+: (transformRow r).text.data := by
  refine ⟨transformRow_text r, ?_⟩
  intro tok htok hrt hnb
  have hcases : tok = "NaN" ∨ tok = "nan" ∨ tok = "null" ∨ tok = "None" := by
    simpa [noValueTokens] using htok
  rcases hcases with rfl | rfl | rfl | rfl <;>
    exact token_not_in_text r _ (by decide) (by decide) (by decide) (by decide) hrt hnb

/-- Witness for C3 at a row with null `room_type` and `neighbourhood`:
both substituted values are empty and the text carries no `NaN` token. -/
theorem c3_text_synthesis_witness :
    (transformRow rowNullFields).text = "Room type:  Neighbourhood: "
    ∧ ¬ "NaN".data <:+: (transformRow rowNullFields).text.data := by
  constructor
  · rw [(c3_text_synthesis rowNullFields).1]
    rfl
  · exact (c3_text_synthesis rowNullFields).2 "NaN" (by decide) (by decide) (by decide)

/-- C4: a table missing a required column makes the whole run abort with
the schema error — the pandas `KeyError` raised by selecting
`listings[required_columns]` — before any document is transformed or
uploaded, so zero output records are produced. -/
theorem c4_missing_column_aborts (t : Table) (c : String)
    (hc : c ∈ requiredColumns) (hmiss : c ∉ t.header) :
    transformListings t = Except.error schemaError ∧
    process_airbnb_csv_and_upload t = Except.error schemaError ∧
    ∀ docs, transformListings t ≠ Except.ok docs := by
  have hcond : ¬ ∀ x ∈ requiredColumns, x ∈ t.header := fun hall => hmiss (hall c hc)
  refine ⟨?_, ?_, ?_⟩ <;>
    simp [transformListings, process_airbnb_csv_and_upload, hcond, Except.map]

/-- Witness for C4 at a table whose header lacks `room_type`. -/
theorem c4_missing_column_aborts_witness :
    transformListings tableMissingRoomType = Except.error schemaError :=
  (c4_missing_column_aborts tableMissingRoomType "room_type"
    (by decide) (by decide)).1

/-- C5: the emitted fields are total strings (never null by construction),
and a row whose `name` is null yields `title = ""`, not `"null"` or
`"NaN"`. -/
theorem c5_null_name_empty_title (r : Row)
    (h : getCell r "name" = none) :
    (transformRow r).title = "" ∧ (transformRow r).title ≠ "null"
    ∧ (transformRow r).title ≠ "NaN" := by
  have ht : (transformRow r).title = "" := by
    rw [transformRow_title, h]
    rfl
  refine ⟨ht, ?_, ?_⟩ <;> rw [ht] <;> decide

/-- Witness for C5 at a row with null `name`. -/
theorem c5_null_name_empty_title_witness :
    (transformRow rowNullFields).title = "" :=
  (c5_null_name_empty_title rowNullFields rfl).1

/-- C6: whenever the transformation succeeds, it emits exactly one document
per input row — no silent drops, no extra records. -/
theorem c6_row_count_preserved (t : Table) (docs : List DocumentRecord)
    (h : transformListings t = Except.ok docs) :
    docs.length = t.rows.length := by
  unfold transformListings at h
  split at h
  · injection h with h2
    rw [← h2]
    exact List.length_map _ _
  · exact absurd h (by simp)

/-- Witness for C6 at a valid two-row table. -/
theorem c6_row_count_preserved_witness :
    (transformRow row12345 :: [transformRow rowNullFields]).length
      = tableTwoRows.rows.length :=
  c6_row_count_preserved tableTwoRows _ rfl

/-- C7: the live-upload path pairs each document's fields with the
identifier `"doc::" + doc_id`, the file-export Envelope (modelled from the
spec) uses `"id:hybrid-search:doc::" + doc_id`, and the two identifier
strings always differ. -/
theorem c7_identifier_templates (r : Row) :
    uploadDocId (transformRow r) = "doc::" ++ (transformRow r).doc_id
    ∧ envelopePut (transformRow r)
        = "id:hybrid-search:doc::" ++ (transformRow r).doc_id
    ∧ uploadDocId (transformRow r) ≠ envelopePut (transformRow r) := by
  refine ⟨rfl, rfl, ?_⟩
  intro h
  have hl := congrArg String.length h
  simp [uploadDocId, envelopePut, String.length_append] at hl
  exact absurd hl (by decide)

/-- C8: the spec's example row transforms to exactly the expected record. -/
theorem c8_example_row :
    transformRow row12345 =
      { doc_id := "12345", title := "Cozy Loft",
        text := "Room type: Private room Neighbourhood: Downtown" } := by
  rfl

/-- C9: the keyword helper issues its query with `bm25` ranking, the
semantic helper with the `semantic` (nearestNeighbor) ranking, both yql
strings cap the result set with `limit 5`, and each helper forwards exactly
that query to the application. -/
theorem c9_query_modes (app : VespaQuery → QueryResponse) (s q : String) :
    (keywordQuery s).ranking = some "bm25"
    ∧ (keywordQuery s).query = some s
    ∧ "limit 5".data <:+ (keywordQuery s).yql.data
    ∧ (semanticQuery q).ranking = some "semantic"
    ∧ "nearestNeighbor".data <:+: (semanticQuery q).yql.data
    ∧ "limit 5".data <:+ (semanticQuery q).yql.data
    ∧ keyword_search app s
        = display_hits_as_df (app (keywordQuery s)) ["doc_id", "title"]
    ∧ semantic_search app q
        = display_hits_as_df (app (semanticQuery q)) ["doc_id", "title"] := by
  refine ⟨rfl, rfl, ?_, rfl, ?_, ?_, rfl, rfl⟩
  · simp only [keywordQuery]
    decide
  · simp only [semanticQuery]
    decide
  · simp only [semanticQuery]
    decide

/-- C10: `get_embedding` returns `none` exactly when the query response has
no hits, and the first hit otherwise — an Option-style result, with no
exception on the empty case. -/
theorem c10_get_embedding_first_hit (doc_id : String)
    (app : VespaQuery → QueryResponse) :
    (get_embedding doc_id app = none ↔ (app (embeddingQuery doc_id)).hits = [])
    ∧ ∀ h t, (app (embeddingQuery doc_id)).hits = h :: t →
        get_embedding doc_id app = some h := by
  unfold get_embedding
  constructor
  · cases hh : (app (embeddingQuery doc_id)).hits <;> simp [hh]
  · intro h t hh
    simp [hh]

/-- An example hit and a one-hit application oracle. -/
def hitExample : Hit := { fields := [("doc_id", "12345"), ("title", "Cozy Loft")] }

/-- An application oracle answering every query with the single example hit. -/
def appOneHit : VespaQuery → QueryResponse := fun _ => { hits := [hitExample] }

/-- Witness for C10: on the one-hit oracle the first hit is returned. -/
theorem c10_get_embedding_first_hit_witness :
    get_embedding "12345" appOneHit = some hitExample :=
  (c10_get_embedding_first_hit "12345" appOneHit).2 hitExample [] rfl

/-- Witness for C7 at the spec's example row: the two identifier strings
are computed and differ. -/
theorem c7_identifier_templates_witness :
    uploadDocId (transformRow row12345) ≠ envelopePut (transformRow row12345) :=
  (c7_identifier_templates row12345).2.2
